import Mathlib

/-!
Shallow embedding of the Hasselize AI backend's transformation core
(`apps/ai-backend`): image normalization/validation/resize
(`utils/image_utils.py`), prompt resolution (`utils/prompt_builder.py`),
request validation (`models/requests.py`), and the model loader
(`services/model_loader.py`).  Python float arithmetic is modelled with
exact rationals; PIL images are modelled by their mode, format attribute
and pixel dimensions.
-/

namespace Hasselize

/-- Camera styles, from `models/enums.py` (`CameraStyle`). -/
inductive CameraStyle
  | hasselblad
  | leica_m
  | zeiss
  | fujifilm_gfx
deriving DecidableEq, Repr

/-- The string value of each `CameraStyle` enum member. -/
def CameraStyle.value : CameraStyle → String
  | .hasselblad => "hasselblad"
  | .leica_m => "leica_m"
  | .zeiss => "zeiss"
  | .fujifilm_gfx => "fujifilm_gfx"

/-- Resolution tiers, from `models/enums.py` (`ResolutionMode`). -/
inductive ResolutionMode
  | preview
  | standard
  | high
deriving DecidableEq, Repr

/-- `ImageService.RESOLUTION_MAP` from `services/image_service.py`:
preview 256x256, standard 512x512, high 1024x1024. -/
def RESOLUTION_MAP : ResolutionMode → Nat × Nat
  | .preview => (256, 256)
  | .standard => (512, 512)
  | .high => (1024, 1024)

/-- Container formats a decoded PIL image can carry in its `format`
attribute.  Only the members of `supported_formats` matter to the code;
`GIF`, `BMP`, `TIFF` stand for the remaining decodable containers. -/
inductive PILFormat
  | JPEG
  | PNG
  | WEBP
  | GIF
  | BMP
  | TIFF
deriving DecidableEq, Repr

/-- PIL color modes relevant to `load_image_from_bytes`.  `bilevel` stands
for PIL mode "1"; `LA` and `PA` are the non-RGBA modes that carry an alpha
channel. -/
inductive PILMode
  | RGB
  | RGBA
  | L
  | LA
  | P
  | PA
  | CMYK
  | bilevel
deriving DecidableEq, Repr

/-- Whether a PIL mode carries an alpha channel (RGBA, LA, PA).
This follows the spec's words "any mode carrying alpha"; the source code
itself never tests for alpha generically. -/
def PILMode.hasAlpha : PILMode → Bool
  | .RGBA => true
  | .LA => true
  | .PA => true
  | _ => false

/-- A decoded PIL image: its mode, its `format` attribute (`none` models
Python `None`, which PIL puts on every derived image such as the result of
`convert` or `Image.new`), and its pixel dimensions. -/
structure PILImage where
  mode : PILMode
  format : Option PILFormat
  width : Nat
  height : Nat
deriving DecidableEq, Repr

/-- Which normalization branch of `load_image_from_bytes` ran. -/
inductive NormStep
  | convertedRGB
  | compositedWhite
  | unchanged
deriving DecidableEq, Repr

/-- The mode-normalization part of `load_image_from_bytes`
(`utils/image_utils.py` lines 40-50), applied to an already decoded image.
Modes outside RGB/RGBA are run through `convert("RGB")`; RGBA is pasted
onto a fresh white `Image.new("RGB", ...)` background.  Both of those
produce a derived image whose `format` attribute is `None`; a plain RGB
image is returned unchanged, keeping its `format`. -/
def load_image_from_bytes (img : PILImage) : PILImage × NormStep :=
  if img.mode ≠ PILMode.RGB ∧ img.mode ≠ PILMode.RGBA then
    ({ mode := PILMode.RGB, format := none, width := img.width, height := img.height },
     NormStep.convertedRGB)
  else if img.mode = PILMode.RGBA then
    ({ mode := PILMode.RGB, format := none, width := img.width, height := img.height },
     NormStep.compositedWhite)
  else
    (img, NormStep.unchanged)

/-- `ImageValidationError` variants raised by `utils/image_utils.py`. -/
inductive ImageValidationError
  | tooSmall (w h minSize : Nat)
  | tooLarge (w h maxSize : Nat)
  | unsupportedFormat (f : Option PILFormat)
deriving DecidableEq, Repr

/-- `validate_image_size` (`utils/image_utils.py` lines 99-125); the
callers use the defaults `min_size = 64`, `max_size = 8192`. -/
def validate_image_size (w h minSize maxSize : Nat) :
    Except ImageValidationError Unit :=
  if w < minSize ∨ h < minSize then
    Except.error (ImageValidationError.tooSmall w h minSize)
  else if w > maxSize ∨ h > maxSize then
    Except.error (ImageValidationError.tooLarge w h maxSize)
  else
    Except.ok ()

/-- `validate_image_format` (`utils/image_utils.py` lines 128-144):
the image's `format` attribute must be one of JPEG, PNG, WEBP; in
particular `None` is rejected. -/
def validate_image_format (img : PILImage) : Except ImageValidationError Unit :=
  if img.format = some PILFormat.JPEG ∨ img.format = some PILFormat.PNG ∨
      img.format = some PILFormat.WEBP then
    Except.ok ()
  else
    Except.error (ImageValidationError.unsupportedFormat img.format)

/-- The validation prelude of `ImageService.transform_image`
(`services/image_service.py` lines 111-115): load/normalize the image,
then `validate_image_size`, then `validate_image_format`. -/
def transform_validate (img : PILImage) : Except ImageValidationError PILImage :=
  let norm := (load_image_from_bytes img).1
  match validate_image_size norm.width norm.height 64 8192 with
  | Except.error e => Except.error e
  | Except.ok _ =>
    match validate_image_format norm with
    | Except.error e => Except.error e
    | Except.ok _ => Except.ok norm

/-- The scaled intermediate dimensions computed by `resize_image`
(`utils/image_utils.py` lines 77-86): the uniform scale is
`min(target_width / original_width, target_height / original_height)` and
each new dimension is `int(original * scale)`.  Python float arithmetic is
modelled exactly over ℚ; `int` truncation of a nonnegative value is
`Nat.floor`. -/
def resize_dims (ow oh tw th : Nat) : Nat × Nat :=
  let wScale : ℚ := (tw : ℚ) / (ow : ℚ)
  let hScale : ℚ := (th : ℚ) / (oh : ℚ)
  let scale : ℚ := min wScale hScale
  (⌊(ow : ℚ) * scale⌋₊, ⌊(oh : ℚ) * scale⌋₊)

/-- Output dimensions of `resize_image` (`utils/image_utils.py` lines
57-96).  After scaling, if the scaled size differs from the target the
code center-crops with the box `(left, top, left + target_width,
top + target_height)`; PIL's `crop` always returns an image of exactly the
box's size (out-of-bounds regions are padded), so the crop branch yields
exactly the target dimensions. -/
def resize_image (ow oh tw th : Nat) : Nat × Nat :=
  let nw := (resize_dims ow oh tw th).1
  let nh := (resize_dims ow oh tw th).2
  if nw ≠ tw ∨ nh ≠ th then (tw, th) else (nw, nh)

/-! ## Prompt resolution (`utils/prompt_builder.py`) -/

/-- The compiled-in default prompt pairs `DEFAULT_PROMPTS`
(`utils/prompt_builder.py` lines 22-39), as (positive, negative). -/
def DEFAULT_PROMPTS : CameraStyle → String × String
  | .hasselblad =>
    ("medium format photography, hasselblad x2d, 100mm lens, f/2.8, exceptional sharpness, natural depth of field, professional color grading, 100 megapixel look",
     "blurry, noise, distorted, oversaturated, artificial lighting, poor composition")
  | .leica_m =>
    ("leica m rangefinder photography, summicron 35mm f/2, high contrast, candid moments, street photography, cinematic color, film grain aesthetic",
     "blurry, oversaturated, hdr, digital look, poor focus")
  | .zeiss =>
    ("zeiss otus lens photography, exceptional sharpness, micro contrast, t* coating, natural colors, professional studio lighting, commercial photography",
     "soft focus, blur, chromatic aberration, oversaturated")
  | .fujifilm_gfx =>
    ("fujifilm gfx medium format, film simulation, velvia colors, large sensor look, professional portrait, natural skin tones, shallow depth of field",
     "digital, artificial colors, oversaturated, poor composition")

/-- Python truthiness of an `Optional[str]`: `None` and `""` are falsy. -/
def strTruthy : Option String → Bool
  | none => false
  | some s => s ≠ ""

/-- Python `v or d` for `v : Optional[str]`, `d : str`: `d` when `v` is
`None` or empty, else the string in `v`. -/
def pyOr (v : Option String) (d : String) : String :=
  match v with
  | none => d
  | some s => if s = "" then d else s

/-- One entry of the local `secret_prompts.json` file: each field is
optional (`dict.get` with a default in the source). -/
structure LocalEntry where
  positive : Option String
  negative : Option String
deriving DecidableEq, Repr

/-- Association-list lookup standing for Python `dict` indexing of the
parsed local-prompts JSON, keyed by the style's string value. -/
def lookupLocal : List (String × LocalEntry) → String → Option LocalEntry
  | [], _ => none
  | (k, e) :: rest, key => if k = key then some e else lookupLocal rest key

/-- `PromptBuilder.build_prompt` (`utils/prompt_builder.py` lines
169-215), the synchronous variant.  `localPrompts` is the content of the
cached local JSON file; an absent or unreadable file caches as the empty
dictionary, i.e. `[]`.  Custom overrides (when truthy) win and fall back
per-field to the style's default; otherwise a local entry for the style's
value wins with per-field defaults; otherwise the compiled-in defaults.
The synchronous variant never consults the remote (Supabase) tier. -/
def build_prompt (localPrompts : List (String × LocalEntry)) (style : CameraStyle)
    (customPositive customNegative : Option String) : String × String :=
  if strTruthy customPositive ∨ strTruthy customNegative then
    (pyOr customPositive (DEFAULT_PROMPTS style).1,
     pyOr customNegative (DEFAULT_PROMPTS style).2)
  else
    match lookupLocal localPrompts style.value with
    | some entry =>
      (entry.positive.getD (DEFAULT_PROMPTS style).1,
       entry.negative.getD (DEFAULT_PROMPTS style).2)
    | none =>
      ((DEFAULT_PROMPTS style).1, (DEFAULT_PROMPTS style).2)

/-! ## Request validation (`models/requests.py`) -/

/-- A validated `TransformRequest` (`models/requests.py` lines 16-83).
`seed` is a nonnegative integer so ℕ; its upper bound is checked by the
field constraint. -/
structure TransformRequest where
  style : CameraStyle
  resolution : ResolutionMode
  image_base64 : Option String
  image_url : Option String
  seed : Option Nat
  negative_prompt : Option String
deriving DecidableEq, Repr

/-- A character of the standard base64 alphabet. -/
def isB64Char (c : Char) : Bool :=
  c.isAlpha || c.isDigit || c = '+' || c = '/'

/-- Whether `b64decode(s, validate=True)` succeeds: length a multiple of
4, at most two `=` padding characters, all at the end, every other
character from the base64 alphabet. -/
def isValidBase64 (s : String) : Bool :=
  let cs := s.toList
  let body := (cs.reverse.dropWhile (fun c => c = '=')).reverse
  cs.length % 4 = 0 && cs.length - body.length ≤ 2 && body.all isB64Char

/-- The `clean_base64` before-validator: when the value is truthy and
contains a comma, keep only what follows the first comma (strips a
data-URI header); otherwise leave it unchanged. -/
def clean_base64 (v : Option String) : Option String :=
  match v with
  | some s =>
    if s ≠ "" ∧ s.contains ',' then
      some (String.intercalate "," (s.splitOn ",").tail)
    else some s
  | none => none

/-- Pydantic validation of a `TransformRequest`: runs the per-field
validators (`clean_base64` then `validate_base64` on `image_base64`;
`validate_url` on `image_url`; the `ge`/`le` bounds on `seed`).  There is
no cross-field validator: nothing requires an image source to be present,
nor forbids both being present. -/
def validate_transform_request (style : CameraStyle) (resolution : ResolutionMode)
    (image_base64 image_url : Option String) (seed : Option Nat)
    (negative_prompt : Option String) : Except String TransformRequest :=
  let b64 := clean_base64 image_base64
  do
    match b64 with
    | some s =>
      if s ≠ "" ∧ ¬ isValidBase64 s then throw "Invalid base64 encoding" else pure ()
    | none => pure ()
    match image_url with
    | some u =>
      if u ≠ "" ∧ ¬ (u.startsWith "http://" ∨ u.startsWith "https://") then
        throw "URL must start with http:// or https://"
      else pure ()
    | none => pure ()
    match seed with
    | some n => if n > 2 ^ 32 - 1 then throw "seed out of range" else pure ()
    | none => pure ()
    pure { style := style, resolution := resolution, image_base64 := b64,
           image_url := image_url, seed := seed, negative_prompt := negative_prompt }

/-- The guard at the top of `ImageService.transform_from_url`
(`services/image_service.py` lines 264-291): `if not request.image_url`
raises `TransformationError("image_url is required")` — a service-level
error, not request validation. -/
def transform_from_url_guard (req : TransformRequest) : Except String Unit :=
  if strTruthy req.image_url = false then
    Except.error "image_url is required"
  else
    Except.ok ()

/-! ## Model loader (`services/model_loader.py`) -/

/-- A loaded pipeline, identified by the id of the underlying object and
the list of LoRA adapters fused into it so far (path and blend weight).
`fuse_lora` mutates the pipeline in place, which the embedding models by
returning the updated value. -/
structure Pipeline where
  objId : Nat
  fused : List (String × ℚ)
deriving DecidableEq, Repr

/-- The mutable state of a `ModelLoader` instance: `_pipeline` and
`_is_loaded`. -/
structure LoaderState where
  pipeline : Option Pipeline
  is_loaded : Bool
deriving DecidableEq, Repr

/-- The freshly constructed loader (`ModelLoader.__init__`). -/
def LoaderState.init : LoaderState :=
  { pipeline := none, is_loaded := false }

/-- `ModelLoader.load_model` (`services/model_loader.py` lines 114-193).
If `_is_loaded` and not `force_reload`, it returns `_pipeline` without
doing any loading work; otherwise it performs the load, whose external
outcome is the `outcome` parameter (a fresh pipeline, or the wrapped
failure raised as `ModelLoadError`).  The result carries the new state,
the returned handle, and whether loading work was performed. -/
def load_model (st : LoaderState) (forceReload : Bool)
    (outcome : Except String Pipeline) :
    Except String (LoaderState × Option Pipeline × Bool) :=
  if st.is_loaded = true ∧ forceReload = false then
    Except.ok (st, st.pipeline, false)
  else
    match outcome with
    | Except.ok p =>
      Except.ok ({ pipeline := some p, is_loaded := true }, some p, true)
    | Except.error e => Except.error ("Model loading failed: " ++ e)

/-- The per-style LoRA table `lora_configs` inside
`ModelLoader._load_lora_weights` (`services/model_loader.py` lines
80-99): (file name, blend weight). -/
def lora_configs : CameraStyle → String × ℚ
  | .hasselblad => ("c41_hasselblad_portra400.safetensors", 1)
  | .leica_m => ("leica_m_style.safetensors", 9 / 10)
  | .zeiss => ("zeiss_otus_style.safetensors", 95 / 100)
  | .fujifilm_gfx => ("fujifilm_gfx_style.safetensors", 1)

/-- The full path of a style's LoRA weight file:
`settings.lora_cache_dir / lora_file`. -/
def loraPath (cacheDir : String) (style : CameraStyle) : String :=
  cacheDir ++ "/" ++ (lora_configs style).1

/-- The warning logged by `_load_lora_weights` when the file is absent. -/
def loraMissingWarning (cacheDir : String) (style : CameraStyle) : String :=
  "LoRA file not found: " ++ loraPath cacheDir style ++ ", using base model"

/-- `ModelLoader._load_lora_weights` (`services/model_loader.py` lines
101-112).  `fs` is the set of paths that exist on disk.  Returns the
(path or `None`, weight) pair and the log lines emitted. -/
def load_lora_weights (fs : List String) (cacheDir : String)
    (style : CameraStyle) : (Option String × ℚ) × List String :=
  let path := loraPath cacheDir style
  if fs.contains path then
    ((some path, (lora_configs style).2), [])
  else
    ((none, 1), [loraMissingWarning cacheDir style])

/-- `ModelLoader.apply_lora_style` (`services/model_loader.py` lines
195-221).  Raises `ModelLoadError("Model not loaded")` when `_pipeline`
is `None`; otherwise resolves the LoRA path, and only when a path was
returned and the file exists does it fuse the weights into the pipeline
(any fusing failure is caught and merely logged, so this call never
raises once a pipeline is loaded).  Returns the new state and the log
lines. -/
def apply_lora_style (fs : List String) (cacheDir : String)
    (st : LoaderState) (style : CameraStyle) :
    Except String (LoaderState × List String) :=
  match st.pipeline with
  | none => Except.error "Model not loaded"
  | some p =>
    let r := load_lora_weights fs cacheDir style
    match r.1.1 with
    | some path =>
      if path ≠ "" ∧ fs.contains path then
        Except.ok
          ({ st with pipeline := some { p with fused := p.fused ++ [(path, r.1.2)] } },
           r.2 ++ ["Applied LoRA style: " ++ style.value])
      else
        Except.ok (st, r.2)
    | none => Except.ok (st, r.2)

/-- Whether an `Except` is an error (a raised exception). -/
def isError {ε α : Type} : Except ε α → Bool
  | Except.error _ => true
  | Except.ok _ => false

/-! ## General lemmas about the embedded code -/

/-- The scaled intermediate never exceeds the target box: the chosen scale
is the minimum of the two axis ratios. -/
theorem resize_dims_le (ow oh tw th : Nat) (how : 0 < ow) (hoh : 0 < oh) :
    (resize_dims ow oh tw th).1 ≤ tw ∧ (resize_dims ow oh tw th).2 ≤ th := by
  have how' : (ow : ℚ) ≠ 0 := Nat.cast_ne_zero.mpr how.ne'
  have hoh' : (oh : ℚ) ≠ 0 := Nat.cast_ne_zero.mpr hoh.ne'
  constructor
  · have h1 : (ow : ℚ) * min ((tw : ℚ) / (ow : ℚ)) ((th : ℚ) / (oh : ℚ)) ≤ (tw : ℚ) := by
      calc (ow : ℚ) * min ((tw : ℚ) / (ow : ℚ)) ((th : ℚ) / (oh : ℚ))
          ≤ (ow : ℚ) * ((tw : ℚ) / (ow : ℚ)) :=
            mul_le_mul_of_nonneg_left (min_le_left _ _) (by positivity)
        _ = (tw : ℚ) := by field_simp
    simpa [resize_dims] using Nat.floor_le_floor h1
  · have h2 : (oh : ℚ) * min ((tw : ℚ) / (ow : ℚ)) ((th : ℚ) / (oh : ℚ)) ≤ (th : ℚ) := by
      calc (oh : ℚ) * min ((tw : ℚ) / (ow : ℚ)) ((th : ℚ) / (oh : ℚ))
          ≤ (oh : ℚ) * ((th : ℚ) / (oh : ℚ)) :=
            mul_le_mul_of_nonneg_left (min_le_right _ _) (by positivity)
        _ = (th : ℚ) := by field_simp
    simpa [resize_dims] using Nat.floor_le_floor h2

/-- `resize_image` always outputs exactly the target dimensions: either
the scaled size already equals the target, or the center-crop box has
exactly the target size. -/
theorem resize_image_eq_target (ow oh tw th : Nat) :
    resize_image ow oh tw th = (tw, th) := by
  simp only [resize_image]
  split
  · rfl
  · rename_i h
    push_neg at h
    rw [h.1, h.2]

/-- The scaled intermediate of the 100x200 input against the 512x512
target: the minimum ratio is 512/200, so the scaled width is 256. -/
theorem resize_dims_100_200 : (resize_dims 100 200 512 512).1 = 256 := by
  simp only [resize_dims]
  rw [min_eq_right (by norm_num)]
  norm_num

/-! ## Claim theorems -/

/-- C1, as stated, is false: the claim says the uniform scale factor makes
both scaled dimensions at least the corresponding target dimension (a
cover scale), but `resize_image` takes `min` of the axis ratios.  For a
100x200 image and a 512x512 target the scaled width is 256 < 512. -/
theorem C1_cover_scale_counterexample :
    (resize_dims 100 200 512 512).1 = 256 ∧
      ¬ (512 ≤ (resize_dims 100 200 512 512).1) := by
  refine ⟨resize_dims_100_200, ?_⟩
  rw [resize_dims_100_200]
  omega

/-- C1 (amended): `resize_image` preserves aspect ratio with the uniform
scale factor `min(width_ratio, height_ratio)`, so the scaled intermediate
is at most as large as the target box in both dimensions (a fit scale,
not a cover scale); the symmetric center-crop that follows still returns
an image of exactly the target dimensions (PIL pads the out-of-bounds
region of the crop box). -/
theorem C1_fit_scale_then_crop (ow oh tw th : Nat)
    (how : 0 < ow) (hoh : 0 < oh) :
    (resize_dims ow oh tw th).1 ≤ tw ∧ (resize_dims ow oh tw th).2 ≤ th ∧
      resize_image ow oh tw th = (tw, th) :=
  ⟨(resize_dims_le ow oh tw th how hoh).1, (resize_dims_le ow oh tw th how hoh).2,
    resize_image_eq_target ow oh tw th⟩

theorem C1_fit_scale_then_crop_witness :
    (resize_dims 100 200 512 512).1 ≤ 512 ∧ (resize_dims 100 200 512 512).2 ≤ 512 ∧
      resize_image 100 200 512 512 = (512, 512) :=
  C1_fit_scale_then_crop 100 200 512 512 (by omega) (by omega)

/-- C2: any decoded image whose mode is not RGB comes out of
`load_image_from_bytes` as a derived image whose `format` attribute is
`None`, so the orchestrator's `validate_image_format` call rejects it
(`Unsupported format: None`) and the validation prelude of
`transform_image` can never succeed for such inputs. -/
theorem C2_non_rgb_never_validates (img : PILImage)
    (hm : img.mode ≠ PILMode.RGB) :
    (load_image_from_bytes img).1.format = none ∧
      validate_image_format (load_image_from_bytes img).1 =
        Except.error (ImageValidationError.unsupportedFormat none) ∧
      isError (transform_validate img) = true := by
  obtain ⟨m, f, w, h⟩ := img
  simp only [PILImage.mode] at hm
  cases m
  case RGB => exact absurd rfl hm
  all_goals
    refine ⟨rfl, rfl, ?_⟩
    simp only [transform_validate, load_image_from_bytes]
    split
    · rfl
    · rfl

theorem C2_non_rgb_never_validates_witness :
    (load_image_from_bytes
        { mode := PILMode.RGBA, format := some PILFormat.PNG,
          width := 512, height := 512 }).1.format = none ∧
      validate_image_format
          (load_image_from_bytes
            { mode := PILMode.RGBA, format := some PILFormat.PNG,
              width := 512, height := 512 }).1 =
        Except.error (ImageValidationError.unsupportedFormat none) ∧
      isError (transform_validate
          { mode := PILMode.RGBA, format := some PILFormat.PNG,
            width := 512, height := 512 }) = true :=
  C2_non_rgb_never_validates
    { mode := PILMode.RGBA, format := some PILFormat.PNG, width := 512, height := 512 }
    (by decide)

/-- C3 fails on the code: a `TransformRequest` with both `image_base64`
and `image_url` unset passes pydantic validation (there is no cross-field
validator requiring an image source), so no "one image source required"
rejection happens at request validation; the absence is only caught later
inside `ImageService.transform_from_url` as a service-level
`TransformationError("image_url is required")`. -/
theorem C3_no_source_passes_validation :
    validate_transform_request CameraStyle.hasselblad ResolutionMode.preview
        none none none none =
      Except.ok
        { style := CameraStyle.hasselblad, resolution := ResolutionMode.preview,
          image_base64 := none, image_url := none, seed := none,
          negative_prompt := none } ∧
      transform_from_url_guard
          { style := CameraStyle.hasselblad, resolution := ResolutionMode.preview,
            image_base64 := none, image_url := none, seed := none,
            negative_prompt := none } =
        Except.error "image_url is required" :=
  ⟨rfl, rfl⟩

/-- C4: for every input size and every supported resolution tier,
`resize_image` outputs exactly the tier's target square. -/
theorem C4_resize_hits_tier_target (tier : ResolutionMode) (ow oh : Nat) :
    resize_image ow oh (RESOLUTION_MAP tier).1 (RESOLUTION_MAP tier).2 =
      RESOLUTION_MAP tier := by
  rw [resize_image_eq_target]

/-- C5: with no caller overrides, no local prompt file (the cache is the
empty dictionary) and no remote source (the synchronous resolver never
consults it), `build_prompt` returns exactly the style's compiled-in
default (positive, negative) pair, and both strings are non-empty. -/
theorem C5_default_prompt_pair (style : CameraStyle) :
    build_prompt [] style none none = DEFAULT_PROMPTS style ∧
      (DEFAULT_PROMPTS style).1 ≠ "" ∧ (DEFAULT_PROMPTS style).2 ≠ "" := by
  cases style <;> exact ⟨rfl, by decide, by decide⟩

/-- C6, as stated, is false: the claim says every alpha-carrying mode is
composited onto white, but `load_image_from_bytes` composites only mode
RGBA; an LA image (grayscale with alpha) falls into the
`convert("RGB")` branch instead. -/
theorem C6_alpha_composite_counterexample :
    PILMode.hasAlpha PILMode.LA = true ∧
      (load_image_from_bytes
          { mode := PILMode.LA, format := some PILFormat.PNG,
            width := 100, height := 100 }).2 = NormStep.convertedRGB ∧
      NormStep.convertedRGB ≠ NormStep.compositedWhite :=
  ⟨rfl, rfl, by decide⟩

/-- C6 (amended): only RGBA-mode images are composited onto an opaque
white background; every other non-RGB mode — including the remaining
alpha-carrying modes such as LA and PA — is converted to RGB directly;
in all cases the normalized image's mode is RGB. -/
theorem C6_rgba_only_composited (img : PILImage) :
    (img.mode = PILMode.RGBA →
        (load_image_from_bytes img).2 = NormStep.compositedWhite) ∧
      (img.mode ≠ PILMode.RGB ∧ img.mode ≠ PILMode.RGBA →
        (load_image_from_bytes img).2 = NormStep.convertedRGB) ∧
      (load_image_from_bytes img).1.mode = PILMode.RGB := by
  obtain ⟨m, f, w, h⟩ := img
  cases m <;> simp [load_image_from_bytes]

theorem C6_rgba_only_composited_witness :
    (load_image_from_bytes
        { mode := PILMode.RGBA, format := some PILFormat.PNG,
          width := 100, height := 100 }).2 = NormStep.compositedWhite ∧
      (load_image_from_bytes
          { mode := PILMode.LA, format := some PILFormat.PNG,
            width := 100, height := 100 }).2 = NormStep.convertedRGB :=
  ⟨(C6_rgba_only_composited
      { mode := PILMode.RGBA, format := some PILFormat.PNG,
        width := 100, height := 100 }).1 rfl,
    (C6_rgba_only_composited
      { mode := PILMode.LA, format := some PILFormat.PNG,
        width := 100, height := 100 }).2.1 ⟨by decide, by decide⟩⟩

/-- C7: for every style, every non-empty custom negative prompt and an
arbitrary local-prompts cache, `build_prompt` with a custom negative but
no custom positive returns the style's compiled-in default positive
paired with the custom negative: the two fields resolve independently and
the override never cascades into the local-file or remote tiers. -/
theorem C7_custom_negative_independent (localPrompts : List (String × LocalEntry))
    (style : CameraStyle) (cn : String) (hcn : cn ≠ "") :
    build_prompt localPrompts style none (some cn) =
      ((DEFAULT_PROMPTS style).1, cn) := by
  simp [build_prompt, strTruthy, pyOr, hcn]

theorem C7_custom_negative_independent_witness :
    build_prompt [] CameraStyle.leica_m none (some "watermark, text") =
      ((DEFAULT_PROMPTS CameraStyle.leica_m).1, "watermark, text") :=
  C7_custom_negative_independent [] CameraStyle.leica_m "watermark, text" (by decide)

/-- C8: `load_model` is idempotent.  Whenever a call with
`force_reload = False` succeeds, a second call with `force_reload = False`
performs no loading work (the load outcome of the second call is never
consulted), leaves the loader state unchanged, and returns the very same
pipeline handle. -/
theorem C8_load_model_idempotent (st : LoaderState)
    (o1 o2 : Except String Pipeline) (st1 : LoaderState)
    (h1 : Option Pipeline) (w1 : Bool)
    (hload : load_model st false o1 = Except.ok (st1, h1, w1)) :
    load_model st1 false o2 = Except.ok (st1, h1, false) := by
  unfold load_model at hload ⊢
  split at hload
  · rename_i hst
    simp only [Except.ok.injEq, Prod.mk.injEq] at hload
    obtain ⟨rfl, rfl, rfl⟩ := hload
    rw [if_pos ⟨hst.1, rfl⟩]
  · cases o1 with
    | ok p =>
      simp only [Except.ok.injEq, Prod.mk.injEq] at hload
      obtain ⟨rfl, rfl, rfl⟩ := hload
      rw [if_pos ⟨rfl, rfl⟩]
    | error e => exact absurd hload (by simp)

theorem C8_load_model_idempotent_witness :
    load_model { pipeline := some { objId := 0, fused := [] }, is_loaded := true }
        false (Except.ok { objId := 1, fused := [] }) =
      Except.ok
        ({ pipeline := some { objId := 0, fused := [] }, is_loaded := true },
         some { objId := 0, fused := [] }, false) :=
  C8_load_model_idempotent LoaderState.init (Except.ok { objId := 0, fused := [] })
    (Except.ok { objId := 1, fused := [] })
    { pipeline := some { objId := 0, fused := [] }, is_loaded := true }
    (some { objId := 0, fused := [] }) true rfl

/-- C9: for every style, when the style's LoRA weight file is absent from
disk, `apply_lora_style` on a loaded pipeline returns with only the
"LoRA file not found" warning logged and the loader state unmodified, and
it raises an error exactly when no pipeline is loaded at all. -/
theorem C9_missing_lora_graceful (fs : List String) (cacheDir : String)
    (st : LoaderState) (style : CameraStyle) :
    (st.pipeline.isSome = true → fs.contains (loraPath cacheDir style) = false →
        apply_lora_style fs cacheDir st style =
          Except.ok (st, [loraMissingWarning cacheDir style])) ∧
      (isError (apply_lora_style fs cacheDir st style) = true ↔
        st.pipeline = none) := by
  obtain ⟨pl, il⟩ := st
  cases pl with
  | none => simp [apply_lora_style, isError]
  | some p =>
    constructor
    · intro _ hmiss
      have hm' : loraPath cacheDir style ∉ fs := by simpa using hmiss
      simp [apply_lora_style, load_lora_weights, hm']
    · simp only [apply_lora_style, load_lora_weights]
      split <;> (try split) <;> simp [isError]

theorem C9_missing_lora_graceful_witness :
    apply_lora_style [] "/models/loras"
        { pipeline := some { objId := 0, fused := [] }, is_loaded := true }
        CameraStyle.zeiss =
      Except.ok
        ({ pipeline := some { objId := 0, fused := [] }, is_loaded := true },
         [loraMissingWarning "/models/loras" CameraStyle.zeiss]) ∧
      (isError (apply_lora_style [] "/models/loras" LoaderState.init
          CameraStyle.zeiss) = true ↔ LoaderState.init.pipeline = none) :=
  ⟨(C9_missing_lora_graceful [] "/models/loras"
      { pipeline := some { objId := 0, fused := [] }, is_loaded := true }
      CameraStyle.zeiss).1 rfl rfl,
    (C9_missing_lora_graceful [] "/models/loras" LoaderState.init
      CameraStyle.zeiss).2⟩

/-- C10: with the default bounds, `validate_image_size` raises exactly
when some dimension is below 64 or above 8192; in particular a 63x63
image is rejected as too small and a 64x64 image is accepted. -/
theorem C10_dimension_bounds :
    (∀ w h : Nat, isError (validate_image_size w h 64 8192) = true ↔
        (w < 64 ∨ h < 64 ∨ 8192 < w ∨ 8192 < h)) ∧
      isError (validate_image_size 63 63 64 8192) = true ∧
      isError (validate_image_size 64 64 64 8192) = false := by
  refine ⟨?_, by decide, by decide⟩
  intro w h
  simp only [validate_image_size]
  split
  · rename_i hlt
    simp [isError]
    omega
  · split <;> simp [isError] <;> omega

end Hasselize
